import Mathlib

/-!
Shallow embedding of `pkg/cloud/vsphere/actuators/machine/actuator.go`
(figo/cluster-api-provider-vsphere).

The actuator's collaborators (object-store client, provisioning backend,
online-status probe, kube-client factory, bootstrap-token issuer, event
recorder) live outside the file under verification; they are modelled as an
environment of oracle values (`Env`), exactly the interface boundary the
spec draws in its section 6.  The actuator's own control flow — the branch
structure of `Create`, `Delete`, `Update` and `Exists`, the `defer` ordering
of the status patch and the outcome event, and the error wrapping — is
translated statement by statement from the Go source.  Observable side
effects (collaborator calls, the status patch, recorded events) are
collected in an ordered trace of `Effect`s.
-/

namespace VSphereActuator

/-- Modelled from the spec: the cluster CA key pair
(`ClusterConfig.CAKeyPair`, declared outside the extracted sources) holds a
certificate and a private key, each possibly absent; "fully populated" means
both are present. Bytes are modelled as `Nat`s. -/
structure KeyPair where
  cert : List Nat
  key : List Nat
deriving DecidableEq, Repr

/-- Modelled from the spec: `CAKeyPair.HasCertAndKey` reports whether both
the certificate and the private key are present (non-empty). -/
def KeyPair.hasCertAndKey (kp : KeyPair) : Bool :=
  !kp.cert.isEmpty && !kp.key.isEmpty

/-- Go `error` values as the actuator observes and produces them: a plain
message (`errors.Errorf`), a wrapping of an inner error with a contextual
message (`errors.Wrapf`), or a `clustererr.RequeueAfterError` carrying a
backoff duration in seconds. In Go the requeue signal travels on the error
channel, so it is one constructor of this type. -/
inductive GoError where
  | msg : String → GoError
  | wrap : String → GoError → GoError
  | requeueAfter : Nat → GoError
deriving DecidableEq, Repr

/-- The slice of the machine operation context the actuator reads:
`ctx.Role()` (a string, empty when the role cannot be resolved) and the
cluster configuration's CA key pair. -/
structure MachineCtx where
  role : String
  caKeyPair : KeyPair
deriving DecidableEq, Repr

/-- `context.ControlPlaneRole`. Declared outside the extracted sources; the
theorems below only ever compare `role` against this constant, so its exact
text is immaterial. -/
def controlPlaneRole : String := "controlplane"

/-- `defaultTokenTTL = 10 * time.Minute`, in seconds. -/
def defaultTokenTTL : Nat := 10 * 60

/-- Modelled from the spec: `constants.RequeueAfterSeconds`, the fixed short
backoff ("a small fixed interval, e.g. tens of seconds"), in seconds. -/
def requeueAfterSeconds : Nat := 20

/-- One observable side effect of an actuator operation, in the order the
operation performs them: collaborator calls, the deferred status patch
(`ctx.Patch()`), and the recorded outcome events (`record.Eventf` /
`record.Warnf`). -/
inductive Effect where
  | membershipQuery : Effect
  | onlineProbe : Effect
  | clientAcquire : Effect
  | tokenIssue : Nat → Effect
  | backendCreate : String → Effect
  | backendDelete : Effect
  | backendUpdate : Effect
  | backendExists : Effect
  | patch : Effect
  | eventSuccess : String → Effect
  | eventFailure : String → Effect
deriving DecidableEq, Repr

/-- The collaborating services, fixed for one actuator invocation: the
machine-context builder, `ctx.GetControlPlaneMachines`,
`kubeclient.GetControlPlaneStatus` (online flag, detail, error),
`kubeclient.GetKubeClientForCluster`, `tokens.NewBootstrap`, and the
govmomi provisioning backend (`Create`/`Delete`/`Update`/`Exists`). -/
structure Env where
  newMachineContext : Except GoError MachineCtx
  getControlPlaneMachines : Except GoError (List String)
  getControlPlaneStatus : Bool × String × Option GoError
  getKubeClientForCluster : Except GoError String
  newBootstrap : String → Nat → Except GoError String
  govmomiCreate : String → Option GoError
  govmomiDelete : Option GoError
  govmomiUpdate : Option GoError
  govmomiExists : Bool × Option GoError

/-- Result of the body of `Create` between the two `defer` statements:
the returned error (if any), the effect trace so far, and whether the
`defer ctx.Patch()` statement was reached (it is registered only after the
role check succeeds, Go source line 95). -/
structure BodyResult where
  result : Option GoError
  effects : List Effect
  patchRegistered : Bool
deriving DecidableEq, Repr

/-- The body of `Actuator.Create` (Go source lines 89-139), translated
branch by branch: role check, CA key-pair check, control-plane membership
query, bootstrap branch (`machineRole == ControlPlaneRole &&
len(controlPlaneMachines) == 1`), and otherwise the join path: online
probe, kube-client acquisition, bootstrap-token issuance with
`defaultTokenTTL`, and the backend create call with the token. -/
def createBody (env : Env) (ctx : MachineCtx) : BodyResult :=
  if ctx.role = "" then
    ⟨some (.msg "unable to get machine role while creating machine"), [], false⟩
  else if !ctx.caKeyPair.hasCertAndKey then
    ⟨some (.requeueAfter requeueAfterSeconds), [], true⟩
  else
    match env.getControlPlaneMachines with
    | .error e =>
        ⟨some (.wrap "unable to get control plane machines while creating machine" e),
          [.membershipQuery], true⟩
    | .ok controlPlaneMachines =>
        if ctx.role = controlPlaneRole ∧ controlPlaneMachines.length = 1 then
          match env.govmomiCreate "" with
          | some e =>
              ⟨some (.wrap "failed to create machine as initial member of the control plane" e),
                [.membershipQuery, .backendCreate ""], true⟩
          | none => ⟨none, [.membershipQuery, .backendCreate ""], true⟩
        else
          if env.getControlPlaneStatus.1 = false then
            ⟨some (.requeueAfter 60), [.membershipQuery, .onlineProbe], true⟩
          else
            match env.getKubeClientForCluster with
            | .error e =>
                ⟨some (.wrap "failed to get kubeclient while creating machine" e),
                  [.membershipQuery, .onlineProbe, .clientAcquire], true⟩
            | .ok kubeClient =>
                match env.newBootstrap kubeClient defaultTokenTTL with
                | .error e =>
                    ⟨some (.wrap "unable to generate boostrap token for joining machine to cluster" e),
                      [.membershipQuery, .onlineProbe, .clientAcquire,
                        .tokenIssue defaultTokenTTL], true⟩
                | .ok token =>
                    match env.govmomiCreate token with
                    | some e =>
                        ⟨some (.wrap "failed to create machine and join it to the cluster" e),
                          [.membershipQuery, .onlineProbe, .clientAcquire,
                            .tokenIssue defaultTokenTTL, .backendCreate token], true⟩
                    | none =>
                        ⟨none,
                          [.membershipQuery, .onlineProbe, .clientAcquire,
                            .tokenIssue defaultTokenTTL, .backendCreate token], true⟩

/-- The deferred outcome event (Go source lines 81-87, 162-168, 196-202):
`record.Eventf(<op>Success, ...)` when the returned result is nil,
`record.Warnf(<op>Failure, ...)` otherwise. A `RequeueAfterError` is a
non-nil error, so it takes the failure arm. -/
def eventFor (opName : String) (result : Option GoError) : Effect :=
  match result with
  | none => .eventSuccess (opName ++ "Success")
  | some _ => .eventFailure (opName ++ "Failure")

/-- `Actuator.Create` (Go source lines 61-140). A context-build failure
returns before any `defer` is registered. Otherwise the body runs, then the
defers unwind in LIFO order: `ctx.Patch()` (when registered) first, the
outcome event last. -/
def Create (env : Env) : Option GoError × List Effect :=
  match env.newMachineContext with
  | .error e => (some e, [])
  | .ok ctx =>
      let b := createBody env ctx
      (b.result,
        b.effects ++ (if b.patchRegistered then [Effect.patch] else [])
          ++ [eventFor "Create" b.result])

/-- `Actuator.Delete` (Go source lines 143-174): once the context resolves,
defer the outcome event, defer `ctx.Patch()`, and return
`govmomi.Delete(ctx)` unwrapped. -/
def Delete (env : Env) : Option GoError × List Effect :=
  match env.newMachineContext with
  | .error e => (some e, [])
  | .ok _ =>
      let r := env.govmomiDelete
      (r, [Effect.backendDelete, Effect.patch, eventFor "Delete" r])

/-- `Actuator.Update` (Go source lines 177-208): same shape as `Delete`,
delegating to `govmomi.Update(ctx)`. -/
def Update (env : Env) : Option GoError × List Effect :=
  match env.newMachineContext with
  | .error e => (some e, [])
  | .ok _ =>
      let r := env.govmomiUpdate
      (r, [Effect.backendUpdate, Effect.patch, eventFor "Update" r])

/-- `Actuator.Exists` (Go source lines 211-231): once the context resolves,
return `govmomi.Exists(ctx)` directly; no patch is deferred and no event is
recorded. -/
def Exists (env : Env) : (Bool × Option GoError) × List Effect :=
  match env.newMachineContext with
  | .error e => ((false, some e), [])
  | .ok _ => (env.govmomiExists, [Effect.backendExists])

/-- Recognises a recorded event in a trace. -/
def isEvent : Effect → Bool
  | .eventSuccess _ => true
  | .eventFailure _ => true
  | _ => false

/-- Recognises a call into the govmomi provisioning backend. -/
def isBackendCall : Effect → Bool
  | .backendCreate _ => true
  | .backendDelete => true
  | .backendUpdate => true
  | .backendExists => true
  | _ => false

/-- Recognises a bootstrap-token issuance. -/
def isTokenIssue : Effect → Bool
  | .tokenIssue _ => true
  | _ => false

/-- A fully populated CA key pair. -/
def okKeyPair : KeyPair := ⟨[1], [1]⟩

/-- A concrete environment where every collaborator succeeds; the machine
is a worker ("node") joining a cluster with one registered control-plane
machine and an online control plane. -/
def baseEnv : Env where
  newMachineContext := .ok ⟨"node", okKeyPair⟩
  getControlPlaneMachines := .ok ["cp0"]
  getControlPlaneStatus := (true, "ready", none)
  getKubeClientForCluster := .ok "kubeclient"
  newBootstrap := fun _ _ => .ok "tok123"
  govmomiCreate := fun _ => none
  govmomiDelete := none
  govmomiUpdate := none
  govmomiExists := (true, none)

/-- `baseEnv` with the machine being the sole control-plane member. -/
def envBootstrap : Env := { baseEnv with newMachineContext := .ok ⟨controlPlaneRole, okKeyPair⟩ }

/-- `baseEnv` with the control plane reported offline. -/
def envOffline : Env := { baseEnv with getControlPlaneStatus := (false, "down", none) }

/-- `baseEnv` with an empty CA key pair on the cluster. -/
def envCAMissing : Env := { baseEnv with newMachineContext := .ok ⟨"node", ⟨[], []⟩⟩ }

/-- `baseEnv` with an unresolved machine role. -/
def envRoleUnset : Env := { baseEnv with newMachineContext := .ok ⟨"", okKeyPair⟩ }

/-- `baseEnv` with an unresolved machine role and an empty CA key pair. -/
def envRoleUnsetCAMissing : Env :=
  { baseEnv with newMachineContext := .ok ⟨"", ⟨[], []⟩⟩ }

theorem createBody_no_event (env : Env) (ctx : MachineCtx) :
    ∀ eff ∈ (createBody env ctx).effects, isEvent eff = false := by
  unfold createBody
  repeat' split
  all_goals simp [isEvent]

theorem createBody_no_patch (env : Env) (ctx : MachineCtx) :
    Effect.patch ∉ (createBody env ctx).effects := by
  unfold createBody
  repeat' split
  all_goals simp

theorem createBody_patchRegistered (env : Env) (ctx : MachineCtx)
    (hrole : ctx.role ≠ "") : (createBody env ctx).patchRegistered = true := by
  unfold createBody
  repeat' split
  all_goals simp_all

/-- C1: for a machine with control-plane role whose membership query
reports exactly one control-plane machine (and whose context resolves with
a complete CA pair), Create calls the backend in bootstrap mode (empty
credential) and returns its result — success, or the error wrapped; no
bootstrap token is issued and the online-status probe is never consulted. -/
theorem create_bootstrap_sole_initializer (env : Env) (ctx : MachineCtx)
    (hctx : env.newMachineContext = .ok ctx)
    (hrole : ctx.role = controlPlaneRole)
    (hca : ctx.caKeyPair.hasCertAndKey = true)
    (ms : List String)
    (hms : env.getControlPlaneMachines = .ok ms)
    (hone : ms.length = 1) :
    (Create env).1 =
      (match env.govmomiCreate "" with
        | none => none
        | some e =>
            some (.wrap "failed to create machine as initial member of the control plane" e)) ∧
    Effect.backendCreate "" ∈ (Create env).2 ∧
    (∀ eff ∈ (Create env).2, isTokenIssue eff = false) ∧
    Effect.onlineProbe ∉ (Create env).2 := by
  have hne : ¬ctx.role = "" := by rw [hrole]; decide
  cases hgc : env.govmomiCreate "" <;>
    simp [Create, createBody, controlPlaneRole, hctx, hrole, hca, hms, hone, hne, hgc,
      eventFor, isTokenIssue]

/-- C1 witness: in a concrete environment meeting the hypotheses, the
bootstrap-mode backend call appears in the trace and the probe does not. -/
theorem create_bootstrap_sole_initializer_witness :
    Effect.backendCreate "" ∈ (Create envBootstrap).2 ∧
    Effect.onlineProbe ∉ (Create envBootstrap).2 := by
  have h := create_bootstrap_sole_initializer envBootstrap ⟨controlPlaneRole, okKeyPair⟩
    rfl rfl (by decide) ["cp0"] rfl rfl
  exact ⟨h.2.1, h.2.2.2⟩

/-- C2: on the join path (role not control-plane, or count ≠ 1) with the
control plane offline, Create returns a requeue-after signal with a
one-minute (60 s) backoff and never attempts client acquisition, token
issuance, or a backend call. -/
theorem create_join_offline_requeues (env : Env) (ctx : MachineCtx)
    (hctx : env.newMachineContext = .ok ctx)
    (hrole : ctx.role ≠ "")
    (hca : ctx.caKeyPair.hasCertAndKey = true)
    (ms : List String)
    (hms : env.getControlPlaneMachines = .ok ms)
    (hjoin : ¬(ctx.role = controlPlaneRole ∧ ms.length = 1))
    (hoff : env.getControlPlaneStatus.1 = false) :
    (Create env).1 = some (.requeueAfter 60) ∧
    Effect.clientAcquire ∉ (Create env).2 ∧
    (∀ eff ∈ (Create env).2, isTokenIssue eff = false) ∧
    (∀ eff ∈ (Create env).2, isBackendCall eff = false) := by
  simp [Create, createBody, hctx, hrole, hca, hms, hjoin, hoff, eventFor,
    isTokenIssue, isBackendCall]

/-- C2 witness: a concrete offline join attempt requeues after one minute
without acquiring a client. -/
theorem create_join_offline_requeues_witness :
    (Create envOffline).1 = some (.requeueAfter 60) ∧
    Effect.clientAcquire ∉ (Create envOffline).2 := by
  have h := create_join_offline_requeues envOffline ⟨"node", okKeyPair⟩
    rfl (by decide) (by decide) ["cp0"] rfl (by decide) rfl
  exact ⟨h.1, h.2.1⟩

/-- C3: on the join path with the control plane online, Create acquires a
cluster client; if that succeeds it issues a bootstrap token with the
default 10-minute TTL; if that succeeds it calls the backend in join mode
with exactly that token; a failure at any of the three steps is wrapped
with context and returned. -/
theorem create_join_online_issues_credential (env : Env) (ctx : MachineCtx)
    (hctx : env.newMachineContext = .ok ctx)
    (hrole : ctx.role ≠ "")
    (hca : ctx.caKeyPair.hasCertAndKey = true)
    (ms : List String)
    (hms : env.getControlPlaneMachines = .ok ms)
    (hjoin : ¬(ctx.role = controlPlaneRole ∧ ms.length = 1))
    (hon : env.getControlPlaneStatus.1 = true) :
    Effect.clientAcquire ∈ (Create env).2 ∧
    (match env.getKubeClientForCluster with
      | .error e =>
          (Create env).1 = some (.wrap "failed to get kubeclient while creating machine" e)
      | .ok kubeClient =>
          Effect.tokenIssue defaultTokenTTL ∈ (Create env).2 ∧
          match env.newBootstrap kubeClient defaultTokenTTL with
          | .error e =>
              (Create env).1 =
                some (.wrap "unable to generate boostrap token for joining machine to cluster" e)
          | .ok token =>
              Effect.backendCreate token ∈ (Create env).2 ∧
              match env.govmomiCreate token with
              | some e =>
                  (Create env).1 =
                    some (.wrap "failed to create machine and join it to the cluster" e)
              | none => (Create env).1 = none) := by
  cases hkc : env.getKubeClientForCluster with
  | error e =>
      simp [Create, createBody, hctx, hrole, hca, hms, hjoin, hon, hkc, eventFor]
  | ok kubeClient =>
      cases htok : env.newBootstrap kubeClient defaultTokenTTL with
      | error e =>
          simp [Create, createBody, hctx, hrole, hca, hms, hjoin, hon, hkc, htok, eventFor]
      | ok token =>
          cases hgc : env.govmomiCreate token with
          | none =>
              simp [Create, createBody, hctx, hrole, hca, hms, hjoin, hon, hkc, htok, hgc,
                eventFor]
          | some e =>
              simp [Create, createBody, hctx, hrole, hca, hms, hjoin, hon, hkc, htok, hgc,
                eventFor]

/-- C3 witness: in the all-good concrete environment, the trace shows the
client acquisition, the 10-minute-TTL token issuance, and the join-mode
backend call with that token, and Create succeeds. -/
theorem create_join_online_issues_credential_witness :
    Effect.clientAcquire ∈ (Create baseEnv).2 ∧
    Effect.tokenIssue defaultTokenTTL ∈ (Create baseEnv).2 ∧
    Effect.backendCreate "tok123" ∈ (Create baseEnv).2 ∧
    (Create baseEnv).1 = none := by
  have h := create_join_online_issues_credential baseEnv ⟨"node", okKeyPair⟩
    rfl (by decide) (by decide) ["cp0"] rfl (by decide) rfl
  exact ⟨h.1, h.2.1, h.2.2.1, h.2.2.2⟩

/-- C4: when the cluster CA key pair is incomplete (and the role resolves),
Create returns a requeue-after signal with the fixed short backoff and
never calls the provisioning backend. -/
theorem create_ca_incomplete_requeues (env : Env) (ctx : MachineCtx)
    (hctx : env.newMachineContext = .ok ctx)
    (hrole : ctx.role ≠ "")
    (hca : ctx.caKeyPair.hasCertAndKey = false) :
    (Create env).1 = some (.requeueAfter requeueAfterSeconds) ∧
    (∀ eff ∈ (Create env).2, isBackendCall eff = false) := by
  simp [Create, createBody, hctx, hrole, hca, eventFor, isBackendCall]

/-- C4 witness: a concrete cluster with an empty CA pair requeues with the
fixed short backoff. -/
theorem create_ca_incomplete_requeues_witness :
    (Create envCAMissing).1 = some (.requeueAfter requeueAfterSeconds) := by
  have h := create_ca_incomplete_requeues envCAMissing ⟨"node", ⟨[], []⟩⟩
    rfl (by decide) (by decide)
  exact h.1

/-- C5: when the machine role does not resolve (empty), Create returns the
configuration error — not a requeue-after signal — and performs neither a
backend call nor the control-plane membership query, whatever the state of
the CA pair or any collaborator. -/
theorem create_role_unresolved_config_error (env : Env) (ctx : MachineCtx)
    (hctx : env.newMachineContext = .ok ctx)
    (hrole : ctx.role = "") :
    (Create env).1 = some (.msg "unable to get machine role while creating machine") ∧
    (∀ n, (Create env).1 ≠ some (.requeueAfter n)) ∧
    (∀ eff ∈ (Create env).2, isBackendCall eff = false) ∧
    Effect.membershipQuery ∉ (Create env).2 := by
  simp [Create, createBody, hctx, hrole, eventFor, isBackendCall]

/-- C5 witness: a concrete machine with an unset role and an incomplete CA
pair still gets the configuration error, not the requeue signal, with no
membership query. -/
theorem create_role_unresolved_config_error_witness :
    (Create envRoleUnsetCAMissing).1 =
      some (.msg "unable to get machine role while creating machine") ∧
    Effect.membershipQuery ∉ (Create envRoleUnsetCAMissing).2 := by
  have h := create_role_unresolved_config_error envRoleUnsetCAMissing ⟨"", ⟨[], []⟩⟩ rfl rfl
  exact ⟨h.1, h.2.2.2⟩

/-- C6 counterexample: a Create that ends in a retry-after outcome (here:
incomplete CA pair) does record a failure event, because the requeue signal
travels on the error channel and the deferred recorder only tests the
result for nil. -/
theorem create_requeue_emits_failure_event :
    (Create envCAMissing).1 = some (.requeueAfter requeueAfterSeconds) ∧
    Effect.eventFailure "CreateFailure" ∈ (Create envCAMissing).2 := by decide

/-- C6 amended: for every Create whose context resolves, exactly one event
is recorded — a success event when the result is nil and a failure event
otherwise; since a retry-after outcome is returned as a non-nil error, it
too records the failure event. -/
theorem create_exactly_one_event (env : Env) (ctx : MachineCtx)
    (hctx : env.newMachineContext = .ok ctx) :
    (Create env).2.filter isEvent = [eventFor "Create" (Create env).1] := by
  cases hb : createBody env ctx with
  | mk result effects patched =>
      have hne : ∀ eff ∈ effects, isEvent eff = false := by
        have h := createBody_no_event env ctx
        rw [hb] at h
        exact h
      simp only [Create, hctx, hb]
      rw [List.filter_append, List.filter_append]
      rw [List.filter_eq_nil_iff.mpr (by intro a ha; simp [hne a ha])]
      cases patched <;> cases result <;> simp [eventFor, isEvent]

/-- C6 amended witness: one success event in the all-good environment. -/
theorem create_exactly_one_event_witness :
    (Create baseEnv).2.filter isEvent = [eventFor "Create" (Create baseEnv).1] :=
  create_exactly_one_event baseEnv ⟨"node", okKeyPair⟩ rfl

/-- C7 counterexample: when the role does not resolve, Create returns after
the event defer is registered but before the patch defer is, so the
invocation emits its failure event without flushing any status patch. -/
theorem create_role_error_skips_patch :
    Effect.patch ∉ (Create envRoleUnset).2 ∧
    Effect.eventFailure "CreateFailure" ∈ (Create envRoleUnset).2 := by decide

/-- C7 amended: for every Create whose context resolves and whose role
resolves to a non-empty value, exactly one status patch is flushed on exit
and the single outcome event is emitted after it (the trace ends with the
patch followed by the event, and no patch or event occurs earlier). -/
theorem create_patch_once_event_after (env : Env) (ctx : MachineCtx)
    (hctx : env.newMachineContext = .ok ctx)
    (hrole : ctx.role ≠ "") :
    ∃ pre,
      (Create env).2 = pre ++ [Effect.patch, eventFor "Create" (Create env).1] ∧
      Effect.patch ∉ pre ∧
      (∀ eff ∈ pre, isEvent eff = false) := by
  cases hb : createBody env ctx with
  | mk result effects patched =>
      have hreg : patched = true := by
        have h := createBody_patchRegistered env ctx hrole
        rw [hb] at h
        exact h
      have hnp : Effect.patch ∉ effects := by
        have h := createBody_no_patch env ctx
        rw [hb] at h
        exact h
      have hne : ∀ eff ∈ effects, isEvent eff = false := by
        have h := createBody_no_event env ctx
        rw [hb] at h
        exact h
      subst hreg
      refine ⟨effects, ?_, hnp, hne⟩
      simp [Create, hctx, hb]

/-- C7 amended witness: in the all-good environment the trace ends with the
patch and then the success event. -/
theorem create_patch_once_event_after_witness :
    ∃ pre,
      (Create baseEnv).2 = pre ++ [Effect.patch, eventFor "Create" (Create baseEnv).1] ∧
      Effect.patch ∉ pre ∧
      (∀ eff ∈ pre, isEvent eff = false) :=
  create_patch_once_event_after baseEnv ⟨"node", okKeyPair⟩ rfl (by decide)

/-- C8: for every Delete whose context resolves, the backend destroy
operation is the one and only backend call in the trace — independent of
role, membership count, or online status, none of which Delete reads — and
Delete returns the destroy result unmodified. -/
theorem delete_calls_destroy_once (env : Env) (ctx : MachineCtx)
    (hctx : env.newMachineContext = .ok ctx) :
    (Delete env).2.filter isBackendCall = [Effect.backendDelete] ∧
    (Delete env).1 = env.govmomiDelete := by
  cases hr : env.govmomiDelete <;> simp [Delete, hctx, hr, eventFor, isBackendCall]

/-- C8 witness: concrete Delete performs exactly the destroy call and
returns its (nil) result. -/
theorem delete_calls_destroy_once_witness :
    (Delete baseEnv).2.filter isBackendCall = [Effect.backendDelete] ∧
    (Delete baseEnv).1 = baseEnv.govmomiDelete :=
  delete_calls_destroy_once baseEnv ⟨"node", okKeyPair⟩ rfl

/-- C9: Exists never flushes a status patch and never records an event,
whether or not the context resolves; it returns the backend existence
answer when the context resolves and the context error otherwise. -/
theorem exists_read_only (env : Env) :
    Effect.patch ∉ (Exists env).2 ∧
    (∀ eff ∈ (Exists env).2, isEvent eff = false) ∧
    (match env.newMachineContext with
      | .error e => (Exists env).1 = (false, some e)
      | .ok _ => (Exists env).1 = env.govmomiExists) := by
  cases hctx : env.newMachineContext <;> simp [Exists, hctx, isEvent]

/-- C9 witness: concrete Exists trace has no patch and no event. -/
theorem exists_read_only_witness :
    Effect.patch ∉ (Exists baseEnv).2 ∧
    (∀ eff ∈ (Exists baseEnv).2, isEvent eff = false) :=
  ⟨(exists_read_only baseEnv).1, (exists_read_only baseEnv).2.1⟩

/-- C10: Create depends on the online-status probe only through its boolean
first component: two environments whose probes agree on the online flag but
differ arbitrarily in detail and error produce identical results and
traces; in particular a probe error is never surfaced. -/
theorem create_probe_boolean_noninterference (env : Env) (b : Bool)
    (d1 d2 : String) (e1 e2 : Option GoError) :
    Create { env with getControlPlaneStatus := (b, d1, e1) } =
      Create { env with getControlPlaneStatus := (b, d2, e2) } := rfl

end VSphereActuator
